import Mathlib

/-!
Shallow embedding of the `wallselect` repository (five Python scripts:
`swww.py`, `generators/hellwall.py`, `generators/matugen.py`,
`generators/pywal.py`, `generators/material.py`) and proofs about the
claims of its natural-language specification.

Python values that flow into the option dictionaries are modelled by
`Val`; Python `dict`s keyed by strings are modelled as association
lists in insertion order (`dictSet` updates in place or appends, as
CPython dictionaries do).  Randomness is modelled by a tape
`t : ℕ → ℕ` of draws: `random.randint(a, b)` applied to draw `n`
yields `a + n % (b - a + 1)`, `random.choice(lst)` yields
`lst[n % len(lst)]`, and `random.uniform(a, b)` yields a rational in
`[a, b]`; every call site reads its own fixed tape position.
-/

namespace Wallselect

/-- A Python value stored in an option dictionary. -/
inductive Val where
  | str (s : String)
  | int (n : ℤ)
  | num (q : ℚ)
  | bool (b : Bool)
deriving DecidableEq, Repr

/-- Python `str()` of a non-negative float with at most one decimal digit
(every float value these scripts render has at most one decimal digit):
integer part and first decimal digit, computed on the reduced
numerator/denominator. -/
def floatStr (q : ℚ) : String :=
  toString (q.num / (q.den : ℤ)) ++ "." ++ toString (q.num * 10 / (q.den : ℤ) % 10)

/-- Python truthiness of a `Val` (`if options.get(k):`). -/
def Val.truthy : Val → Bool
  | .str s => s ≠ ""
  | .int n => n ≠ 0
  | .num q => q ≠ 0
  | .bool b => b

/-- Python `str()` of a `Val`. -/
def Val.pyStr : Val → String
  | .str s => s
  | .int n => toString n
  | .num q => floatStr q
  | .bool b => if b then "True" else "False"

/-- `d.get(key)` on an insertion-ordered dictionary. -/
def dictGet {α : Type} : List (String × α) → String → Option α
  | [], _ => none
  | (k, v) :: rest, key => if k = key then some v else dictGet rest key

/-- `d[key] = v` on an insertion-ordered dictionary: update in place,
or append when the key is new. -/
def dictSet {α : Type} : List (String × α) → String → α → List (String × α)
  | [], k, v => [(k, v)]
  | (k', v') :: rest, k, v =>
      if k' = k then (k', v) :: rest else (k', v') :: dictSet rest k v

/-- `list(d.keys())`. -/
def dictKeys {α : Type} (d : List (String × α)) : List String :=
  d.map Prod.fst

/-- Truthiness of `options.get(k)` (`None` when absent is falsy). -/
def pyGetTruthy (opts : List (String × Val)) (k : String) : Bool :=
  match dictGet opts k with
  | none => false
  | some v => v.truthy

/-- `random.randint(a, b)` with draw `n` (inclusive bounds). -/
def randint (a b n : ℕ) : ℕ := a + n % (b - a + 1)

/-- `random.choice(lst)` / `get_random_element(lst)` with draw `n`. -/
def pyChoice {α : Type} (l : List α) (d : α) (n : ℕ) : α :=
  l.getD (n % l.length) d

/-- `random.uniform(a, b)` with draw `n`, modelled as a rational in `[a, b]`. -/
def uniformQ (a b : ℚ) (n : ℕ) : ℚ := a + (b - a) * (n % 1000 : ℕ) / 1000

namespace Swww

/-- `create_swww_command`: extend the command for a truthy string-valued
option (`if options.get(k): command.extend([flag, options[k]])`). -/
def extendTruthy (options : List (String × Val)) (key flag : String)
    (cmd : List String) : List String :=
  match dictGet options key with
  | some v => if v.truthy then cmd ++ [flag, v.pyStr] else cmd
  | none => cmd

/-- `create_swww_command`: extend the command for an option checked with
`is not None` (`command.extend([flag, str(options[k])])`). -/
def extendSome (options : List (String × Val)) (key flag : String)
    (cmd : List String) : List String :=
  match dictGet options key with
  | some v => cmd ++ [flag, v.pyStr]
  | none => cmd

/-- `create_swww_command(image_path, options)` from `swww.py`. -/
def create_swww_command (image_path : String)
    (options : List (String × Val)) : List String :=
  let cmd := ["swww", "img", image_path]
  let cmd := if pyGetTruthy options "noResize" then cmd ++ ["--no-resize"] else cmd
  let cmd := extendTruthy options "resize" "--resize" cmd
  let cmd := extendTruthy options "fillColor" "--fill-color" cmd
  let cmd := extendTruthy options "filter" "-f" cmd
  let cmd := extendTruthy options "transitionType" "--transition-type" cmd
  let cmd := extendSome options "transitionStep" "--transition-step" cmd
  let cmd := extendSome options "transitionDuration" "--transition-duration" cmd
  let cmd := extendSome options "transitionFps" "--transition-fps" cmd
  let cmd := extendSome options "transitionAngle" "--transition-angle" cmd
  let cmd := extendTruthy options "transitionPos" "--transition-pos" cmd
  cmd

/-- The `transition_types` list of `generate_random_swww_options`. -/
def transition_types : List String :=
  ["fade", "left", "right", "top", "bottom",
   "wipe", "wave", "grow", "center", "outer",
   "top-left", "top-right", "bottom-left", "bottom-right",
   "center-out", "outer-in",
   "spiral", "diamond", "hexagon"]

/-- The `filters` list of `generate_random_swww_options`
(`None` entries make "no filter" more likely). -/
def filtersList : List (Option String) :=
  [none, none, none,
   some "Lanczos3", some "Mitchell", some "CatmullRom", some "Triangle",
   some "Gaussian"]

/-- The `fill_colors` list of `generate_random_swww_options`. -/
def fillColorsList : List (Option String) :=
  [none, none,
   some "#000000", some "#FFFFFF", some "#1a1a1a", some "#2d2d2d",
   some "#0f0f0f", some "#333333", some "#404040"]

/-- `generate_random_swww_options` from `swww.py`, over the draw tape `t`.
The dictionary entries are built first (possibly `None` for `filter`
and `fillColor`) and the `None` values are then removed, exactly as
the source's final dictionary comprehension does. -/
def generate_random_swww_options (t : ℕ → ℕ) : List (String × Val) :=
  let positions : List String :=
    ["center", "top", "left", "right", "bottom",
     "top-left", "top-right", "bottom-left", "bottom-right",
     "top-center", "bottom-center", "left-center", "right-center",
     "quarter-top-left", "quarter-top-right",
     "quarter-bottom-left", "quarter-bottom-right",
     toString (randint 10 90 (t 0)) ++ "," ++ toString (randint 10 90 (t 1)),
     toString (randint 0 50 (t 2)) ++ "," ++ toString (randint 0 50 (t 3)),
     toString (randint 50 100 (t 4)) ++ "," ++ toString (randint 50 100 (t 5))]
  let resize_options : List String := ["crop", "crop", "crop", "fit", "no"]
  let transition_step : ℤ :=
    pyChoice [200, 220, 240, 255, 120, 140, 160, 180, 60, 80, 100] 0 (t 6)
  let transition_duration : ℚ :=
    pyChoice [1/2, 4/5, 1, 6/5, 3/2, 2, 5/2, 3, 4, 5] 0 (t 7)
  let transition_fps : ℤ := pyChoice [60, 60, 60] 0 (t 8)
  let selected_transition := pyChoice transition_types "" (t 9)
  let transition_angle : ℤ :=
    if selected_transition = "wipe" ∨ selected_transition = "wave" ∨
       selected_transition = "spiral" then
      (randint 0 359 (t 10) : ℕ)
    else if selected_transition = "grow" ∨ selected_transition = "center" ∨
            selected_transition = "outer" then
      pyChoice [0, 45, 90, 135, 180, 225, 270, 315] 0 (t 10)
    else
      (randint 0 359 (t 10) : ℕ)
  let raw : List (String × Option Val) :=
    [("resize", some (.str (pyChoice resize_options "" (t 11)))),
     ("transitionType", some (.str selected_transition)),
     ("transitionStep", some (.int transition_step)),
     ("transitionDuration", some (.num transition_duration)),
     ("transitionFps", some (.int transition_fps)),
     ("transitionAngle", some (.int transition_angle)),
     ("transitionPos", some (.str (pyChoice positions "" (t 12)))),
     ("filter", (pyChoice filtersList none (t 13)).map .str),
     ("fillColor", (pyChoice fillColorsList none (t 14)).map .str)]
  raw.filterMap (fun kv => kv.2.map (fun v => (kv.1, v)))

/-- `generate_themed_transition(theme)` from `swww.py`, over the draw
tape `t` (the recursive call to `generate_random_swww_options` reads
tape positions shifted by 20 so its draws are independent). -/
def generate_themed_transition (theme : String) (t : ℕ → ℕ) :
    List (String × Val) :=
  let themes : List (String × List (String × Val)) :=
    [("smooth",
      [("transitionType", .str (pyChoice ["fade", "grow", "center"] "" (t 0))),
       ("transitionStep", .int (randint 180 255 (t 1))),
       ("transitionDuration", .num (uniformQ (3/2) 3 (t 2))),
       ("transitionFps", .int 60)]),
     ("dramatic",
      [("transitionType", .str (pyChoice ["wipe", "wave", "spiral"] "" (t 3))),
       ("transitionStep", .int (randint 200 255 (t 4))),
       ("transitionDuration", .num (uniformQ (1/2) (3/2) (t 5))),
       ("transitionFps", .int (pyChoice [60, 60] 0 (t 6))),
       ("transitionAngle", .int (randint 0 359 (t 7)))]),
     ("minimal",
      [("transitionType", .str "fade"),
       ("transitionStep", .int 255),
       ("transitionDuration", .num 1),
       ("transitionFps", .int 30)]),
     ("dynamic",
      [("transitionType",
        .str (pyChoice ["left", "right", "top", "bottom", "diagonal"] "" (t 8))),
       ("transitionStep", .int (randint 150 220 (t 9))),
       ("transitionDuration", .num (uniformQ (4/5) 2 (t 10))),
       ("transitionFps", .int (pyChoice [60, 60] 0 (t 11)))])]
  if theme = "random" || (dictGet themes theme).isNone then
    generate_random_swww_options (fun n => t (20 + n))
  else
    let base := (dictGet themes theme).getD []
    let base := dictSet base "resize" (.str "crop")
    let base := dictSet base "transitionPos"
      (.str (pyChoice ["center", "top-left", "top-right", "bottom-left",
                       "bottom-right"] "" (t 12)))
    base

/-- The list printed by `list_available_transitions` in `swww.py`. -/
def available_transitions : List String :=
  ["fade", "left", "right", "top", "bottom",
   "wipe", "wave", "grow", "center", "outer",
   "top-left", "top-right", "bottom-left", "bottom-right",
   "center-out", "outer-in", "spiral", "diamond", "hexagon"]

/-- The argparse namespace of `swww.py` (`parse_command_line_args`).
`store_true` flags default to `False`; valued options default to `None`. -/
structure Args where
  image_path : String
  theme : String
  transitionType : Option String
  transitionStep : Option ℚ
  transitionDuration : Option ℚ
  transitionFps : Option ℤ
  transitionAngle : Option ℚ
  transitionPos : Option String
  filter : Option String
  noResize : Bool
  resize : Option String
  fillColor : Option String
  random : Bool
  list_transitions : Bool

/-- `vars(args)` in attribute insertion order; absent optional values
are `none` (Python `None`), `store_true` flags are always present. -/
def varsOf (a : Args) : List (String × Option Val) :=
  [("image_path", some (.str a.image_path)),
   ("theme", some (.str a.theme)),
   ("transitionType", a.transitionType.map .str),
   ("transitionStep", a.transitionStep.map .num),
   ("transitionDuration", a.transitionDuration.map .num),
   ("transitionFps", a.transitionFps.map .int),
   ("transitionAngle", a.transitionAngle.map .num),
   ("transitionPos", a.transitionPos.map .str),
   ("filter", a.filter.map .str),
   ("noResize", some (.bool a.noResize)),
   ("resize", a.resize.map .str),
   ("fillColor", a.fillColor.map .str),
   ("random", some (.bool a.random)),
   ("list_transitions", some (.bool a.list_transitions))]

/-- The dictionary comprehension of `__main__`:
`{k: v for k, v in vars(args).items() if v is not None and k not in [...]}`. -/
def cliOptions (a : Args) : List (String × Val) :=
  (varsOf a).filterMap (fun kv =>
    if kv.1 = "image_path" ∨ kv.1 = "random" ∨ kv.1 = "theme" ∨
       kv.1 = "list_transitions" then none
    else kv.2.map (fun v => (kv.1, v)))

/-- The option-selection logic of `__main__` in `swww.py` (after the
`--list-transitions` early exit). -/
def mainOptions (a : Args) (t : ℕ → ℕ) : List (String × Val) :=
  if a.random then generate_random_swww_options t
  else if a.theme ≠ "random" then generate_themed_transition a.theme t
  else
    let options := cliOptions a
    if options = [] then generate_themed_transition a.theme t else options

/-- The command executed by `__main__` in `swww.py`. -/
def mainCommand (a : Args) (t : ℕ → ℕ) : List String :=
  create_swww_command a.image_path (mainOptions a t)

/-- The argparse defaults of `swww.py` when only the image path is given
on the command line. -/
def defaultArgs (p : String) : Args :=
  { image_path := p, theme := "random", transitionType := none,
    transitionStep := none, transitionDuration := none,
    transitionFps := none, transitionAngle := none, transitionPos := none,
    filter := none, noResize := false, resize := none, fillColor := none,
    random := false, list_transitions := false }

end Swww

/-! ### Character-level models of the Python `str` methods used here
(the built-in Lean `String` functions are avoided because several are
not kernel-reducible). -/

/-- The whitespace characters `str.strip()` removes (the ASCII ones,
which are the only ones these config files can contain). -/
def isSpaceChar (c : Char) : Bool :=
  c = ' ' || c = '\t' || c = '\n' || c = '\r'

/-- `s.strip()`. -/
def pyStrip (s : String) : String :=
  String.mk (((s.data.dropWhile isSpaceChar).reverse.dropWhile isSpaceChar).reverse)

/-- `str.lower()` on one ASCII character. -/
def lowerChar (c : Char) : Char :=
  if 'A' ≤ c ∧ c ≤ 'Z' then Char.ofNat (c.toNat + 32) else c

/-- `s.lower()`. -/
def pyLower (s : String) : String := String.mk (s.data.map lowerChar)

/-- `s.startswith(c)` for a one-character prefix. -/
def pyStartsWith (s : String) (c : Char) : Bool :=
  match s.data with
  | [] => false
  | x :: _ => x = c

/-- `s.endswith(c)` for a one-character suffix. -/
def pyEndsWith (s : String) (c : Char) : Bool :=
  match s.data.getLast? with
  | none => false
  | some x => x = c

/-- `c in s` for a single character. -/
def pyContains (s : String) (c : Char) : Bool := s.data.contains c

/-- `str.split(sep)` for a one-character separator, on character lists. -/
def splitOnChar (c : Char) : List Char → List (List Char)
  | [] => [[]]
  | x :: rest =>
      let r := splitOnChar c rest
      if x = c then [] :: r
      else
        match r with
        | [] => [[x]]
        | h :: tl => (x :: h) :: tl

/-! ### INI-style config loading shared by the three generator scripts

Each generator's `load_config` scans the file line by line with an
`in_section` flag: a line equal to the script's own section header
turns the flag on, any other `[...]` header turns it off, and a
`key=value` line is applied only while the flag is on.  The `elif`
chain mapping config keys is uniform — every recognized key `k` runs
`settings[k] = value` — so it is modelled by `applyMapped` with the
script's list of recognized keys. -/

/-- The `elif` chain of a generator's `load_config`: a recognized key is
assigned into the settings dictionary, any other key is ignored. -/
def applyMapped (mapped : List String) (s : List (String × String))
    (key value : String) : List (String × String) :=
  if key ∈ mapped then dictSet s key value else s

/-- `line.split("=", 1)`. -/
def splitEq (s : String) : String × String :=
  match splitOnChar '=' s.data with
  | [] => (s, "")
  | k :: rest => (String.mk k, String.mk (List.intercalate ['='] rest))

/-- One iteration of the `for line in f` loop of `load_config`:
`st.1` is the `in_section` flag, `st.2` the settings dictionary. -/
def processLine (sec : String) (mapped : List String)
    (st : Bool × List (String × String)) (rawLine : String) :
    Bool × List (String × String) :=
  let line := pyStrip rawLine
  if line = "" || pyStartsWith line '#' then st
  else if line = sec then (true, st.2)
  else if pyStartsWith line '[' && pyEndsWith line ']' then (false, st.2)
  else if st.1 && pyContains line '=' then
    let kv := splitEq line
    (st.1, applyMapped mapped st.2 (pyLower (pyStrip kv.1)) (pyStrip kv.2))
  else st

/-- The whole `for line in f` loop of `load_config`, starting outside
any section with the default settings. -/
def loadLines (sec : String) (mapped : List String)
    (defaults : List (String × String)) (lines : List String) :
    List (String × String) :=
  (lines.foldl (processLine sec mapped) (false, defaults)).2

/-- The `in_section` flag after processing a prefix of the file. -/
def inSectionAfter (sec : String) (mapped : List String)
    (defaults : List (String × String)) (pre : List String) : Bool :=
  (pre.foldl (processLine sec mapped) (false, defaults)).1

/-- A generator's `load_config`: `none` models an absent config file or
an empty path (`if not config_path or not os.path.exists(...)`), both
of which return the defaults untouched. -/
def load_config (sec : String) (mapped : List String)
    (defaults : List (String × String)) :
    Option (List String) → List (String × String)
  | none => defaults
  | some lines => loadLines sec mapped defaults lines

/-! ### Python float parsing and conversion helpers for the builders -/

/-- Digits of a decimal numeral; `none` on any non-digit character. -/
def parseNatDigits (cs : List Char) : Option ℕ :=
  cs.foldlM (fun acc c =>
    if c.isDigit then some (acc * 10 + (c.toNat - 48)) else none) 0

/-- Python `float(s)` on the plain decimal strings these scripts read
from config files (optional sign, digits, optional fractional part);
`none` models the uncaught `ValueError` on anything else.  The value
`ip.fp` is assembled as the exact rational
`(ip * 10 ^ k + fp) / 10 ^ k`. -/
def pyFloat (s : String) : Option ℚ :=
  let cs := (pyStrip s).data
  let neg := match cs with
    | '-' :: _ => true
    | _ => false
  let body := match cs with
    | '-' :: rest => rest
    | _ => cs
  match splitOnChar '.' body with
  | [a] =>
      if a = [] then none
      else (parseNatDigits a).map (fun n =>
        mkRat (if neg then -(n : ℤ) else (n : ℤ)) 1)
  | [a, b] =>
      if a = [] ∧ b = [] then none
      else do
        let ip ← parseNatDigits a
        let fp ← parseNatDigits b
        let mag := ip * 10 ^ b.length + fp
        some (mkRat (if neg then -(mag : ℤ) else (mag : ℤ)) (10 ^ b.length))
  | _ => none

/-- Python `a if a else b` for an optional string `a` (`None` and the
empty string are falsy). -/
def pyOr (a : Option String) (b : String) : String :=
  match a with
  | some s => if s ≠ "" then s else b
  | none => b

/-- A Python number that remembers whether it is an `int` or a `float`
(`str()` renders them differently: `str(0) = "0"`, `str(0.0) = "0.0"`). -/
inductive PyNum where
  | int (n : ℤ)
  | float (q : ℚ)
deriving DecidableEq, Repr

/-- Python `str()` of a `PyNum`. -/
def pyNumStr : PyNum → String
  | .int n => toString n
  | .float q => floatStr q

/-! ### Subprocess relaying shared by the three generator scripts -/

/-- One line written by a script, tagged with the stream it goes to. -/
inductive Out where
  | stdout (s : String)
  | stderr (s : String)
deriving DecidableEq, Repr

/-- The captured result of `subprocess.run(cmd, capture_output=True)`. -/
structure ProcResult where
  stdout : String
  stderr : String
  returncode : ℤ
deriving DecidableEq, Repr

/-- The relay block shared by `run_hellwal` / `run_matugen` /
`run_pywal`: print captured stdout when non-empty, print captured
stderr to stderr when non-empty. -/
def relayOutput (r : ProcResult) : List Out :=
  (if r.stdout ≠ "" then [Out.stdout r.stdout] else []) ++
  (if r.stderr ≠ "" then [Out.stderr r.stderr] else [])

/-- `sys.exit(0 if success else 1)` at the end of each generator `main`. -/
def script_exit (success : Bool) : ℕ := if success then 0 else 1

namespace Hellwal

/-- The default `settings` dictionary of `load_config` in `hellwall.py`. -/
def default_settings : List (String × String) :=
  [("mode", "dark"), ("neon_mode", "false"), ("gray_scale", "0"),
   ("dark_offset", "0.2"), ("bright_offset", "0.2"), ("invert", "false"),
   ("random", "false"), ("quiet", "false"), ("json", "false"),
   ("skip_term", "false"), ("skip_lum", "false"), ("debug", "false"),
   ("no_cache", "false")]

/-- The config keys recognized by the `elif` chain in `hellwall.py`. -/
def mapped_keys : List String :=
  ["mode", "neon_mode", "gray_scale", "dark_offset", "bright_offset",
   "invert", "random", "quiet", "json", "skip_term", "skip_lum",
   "debug", "no_cache"]

/-- `load_config` of `hellwall.py` (section `[Hellwal]`). -/
def load (file : Option (List String)) : List (String × String) :=
  load_config "[Hellwal]" mapped_keys default_settings file

/-- The argparse namespace of `hellwall.py`. -/
structure Args where
  image : String
  config : Option String
  mode : String
  neon_mode : Bool
  invert : Bool
  gray_scale : Option ℚ
  dark_offset : Option ℚ
  bright_offset : Option ℚ
  random : Bool
  quiet : Bool
  json : Bool
  skip_term_colors : Bool
  skip_luminance_sort : Bool
  debug : Bool
  no_cache : Bool

/-- The argparse defaults of `hellwall.py` with only `--image` given
(`--mode` defaults to the string `"dark"`). -/
def defaultArgs (img : String) : Args :=
  { image := img, config := none, mode := "dark", neon_mode := false,
    invert := false, gray_scale := none, dark_offset := none,
    bright_offset := none, random := false, quiet := false, json := false,
    skip_term_colors := false, skip_luminance_sort := false,
    debug := false, no_cache := false }

/-- `build_hellwal_command(args, settings)` from `hellwall.py`.
`none` models an uncaught exception (missing settings key or a
`ValueError` from `float()`); both are impossible on settings produced
by `load`. -/
def build_hellwal_command (args : Args) (settings : List (String × String)) :
    Option (List String) := do
  let cmd := ["hellwal", "-i", args.image]
  let smode ← dictGet settings "mode"
  let mode := if args.mode ≠ "" then args.mode else smode
  let cmd := cmd ++ [if mode = "light" then "-l" else "-d"]
  let sneon ← dictGet settings "neon_mode"
  let cmd := if args.neon_mode || pyLower sneon == "true" then cmd ++ ["-m"] else cmd
  let sinv ← dictGet settings "invert"
  let cmd := if args.invert || pyLower sinv == "true" then cmd ++ ["-v"] else cmd
  let sgray ← dictGet settings "gray_scale"
  let gray ← match args.gray_scale with
    | some g => some g
    | none => if sgray = "" then some (mkRat 0 1) else pyFloat sgray
  let cmd := if gray > 0 then cmd ++ ["-g", floatStr gray] else cmd
  let sdark ← dictGet settings "dark_offset"
  let dark ← match args.dark_offset with
    | some g => some g
    | none => if sdark = "" then some (mkRat 1 5) else pyFloat sdark
  let cmd := cmd ++ ["-n", floatStr dark]
  let sbright ← dictGet settings "bright_offset"
  let bright ← match args.bright_offset with
    | some g => some g
    | none => if sbright = "" then some (mkRat 1 5) else pyFloat sbright
  let cmd := cmd ++ ["-b", floatStr bright]
  let srand ← dictGet settings "random"
  let cmd := if args.random || pyLower srand == "true" then cmd ++ ["-r"] else cmd
  let squiet ← dictGet settings "quiet"
  let cmd := if args.quiet || pyLower squiet == "true" then cmd ++ ["-q"] else cmd
  let sjson ← dictGet settings "json"
  let cmd := if args.json || pyLower sjson == "true" then cmd ++ ["-j"] else cmd
  let sterm ← dictGet settings "skip_term"
  let cmd := if args.skip_term_colors || pyLower sterm == "true" then
    cmd ++ ["--skip-term-colors"] else cmd
  let slum ← dictGet settings "skip_lum"
  let cmd := if args.skip_luminance_sort || pyLower slum == "true" then
    cmd ++ ["--skip-luminance-sort"] else cmd
  let sdebug ← dictGet settings "debug"
  let cmd := if args.debug || pyLower sdebug == "true" then cmd ++ ["--debug"] else cmd
  let scache ← dictGet settings "no_cache"
  let cmd := if args.no_cache || pyLower scache == "true" then cmd ++ ["--no-cache"] else cmd
  some cmd

/-- `run_hellwal(cmd)`: the debug echo, the relayed streams, and the
success flag `returncode == 0`. -/
def run_hellwal (cmd : List String) (r : ProcResult) : List Out × Bool :=
  (Out.stdout ("Running hellwal command: " ++ String.intercalate " " cmd) ::
    relayOutput r, r.returncode == 0)

/-- The run-and-exit portion of `main()` in `hellwall.py` (the settings
debug echo that precedes it is omitted). -/
def hellwal_main (cmd : List String) (r : ProcResult) : List Out × ℕ :=
  let run := run_hellwal cmd r
  (run.1, script_exit run.2)

end Hellwal

namespace Matugen

/-- The default `settings` dictionary of `load_config` in `matugen.py`. -/
def default_settings : List (String × String) :=
  [("mode", "dark"), ("type", "scheme-tonal-spot"), ("contrast", "0"),
   ("dry_run", "false"), ("show_colors", "false"), ("json", ""),
   ("quiet", "false"), ("debug", "false")]

/-- The config keys recognized by the `elif` chain in `matugen.py`
(note `verbose`, which is recognized but has no default entry). -/
def mapped_keys : List String :=
  ["mode", "type", "contrast", "json", "show_colors", "verbose",
   "quiet", "debug", "dry_run"]

/-- `load_config` of `matugen.py` (section `[Matugen]`). -/
def load (file : Option (List String)) : List (String × String) :=
  load_config "[Matugen]" mapped_keys default_settings file

/-- The argparse namespace of `matugen.py`.  `--contrast` has the
integer default `0`, so the field is never `None`. -/
structure Args where
  image : String
  config : Option String
  mode : String
  type : String
  contrast : Option PyNum
  dry_run : Bool
  show_colors : Bool
  json : Option String
  quiet : Bool
  debug : Bool
  verbose : Bool

/-- The argparse defaults of `matugen.py` with only `--image` given. -/
def defaultArgs (img : String) : Args :=
  { image := img, config := none, mode := "dark",
    type := "scheme-tonal-spot", contrast := some (.int 0),
    dry_run := false, show_colors := false, json := none,
    quiet := false, debug := false, verbose := false }

/-- `build_matugen_command(args, settings)` from `matugen.py`. -/
def build_matugen_command (args : Args) (settings : List (String × String)) :
    Option (List String) := do
  let cmd := ["matugen", "image", args.image]
  let smode ← dictGet settings "mode"
  let mode := if args.mode ≠ "" then args.mode else smode
  let cmd := cmd ++ ["--mode", mode]
  let stype ← dictGet settings "type"
  let sty := if args.type ≠ "" then args.type else stype
  let cmd := cmd ++ ["--type", sty]
  let contrast ← match args.contrast with
    | some c => some c
    | none => do
        let sc ← dictGet settings "contrast"
        (pyFloat sc).map PyNum.float
  let cmd := cmd ++ ["--contrast", pyNumStr contrast]
  let sdry ← dictGet settings "dry_run"
  let cmd := if args.dry_run || pyLower sdry == "true" then cmd ++ ["--dry-run"] else cmd
  let sshow ← dictGet settings "show_colors"
  let cmd := if args.show_colors || pyLower sshow == "true" then
    cmd ++ ["--show-colors"] else cmd
  let sjson ← dictGet settings "json"
  let jf := pyOr args.json sjson
  let cmd := if jf ≠ "" then cmd ++ ["--json", jf] else cmd
  let squiet ← dictGet settings "quiet"
  let cmd := if args.quiet || pyLower squiet == "true" then cmd ++ ["--quiet"] else cmd
  let sdebug ← dictGet settings "debug"
  let cmd := if args.debug || pyLower sdebug == "true" then cmd ++ ["--debug"] else cmd
  some cmd

/-- `run_matugen(cmd)`: the debug echo, the relayed streams, and the
success flag `returncode == 0`. -/
def run_matugen (cmd : List String) (r : ProcResult) : List Out × Bool :=
  (Out.stdout ("Running: " ++ String.intercalate " " cmd) :: relayOutput r,
   r.returncode == 0)

/-- The run-and-exit portion of `main()` in `matugen.py`. -/
def matugen_main (cmd : List String) (r : ProcResult) : List Out × ℕ :=
  let run := run_matugen cmd r
  (run.1, script_exit run.2)

end Matugen

namespace Pywal

/-- The default `settings` dictionary of `load_config` in `pywal.py`. -/
def default_settings : List (String × String) :=
  [("mode", "dark"), ("cols16", "true"), ("saturate", "0.6"),
   ("backend", "wal"), ("contrast", "1.0"), ("skip_wallpaper", "false"),
   ("skip_terminals", "false"), ("skip_tty", "false"),
   ("skip_reload", "false")]

/-- The config keys recognized by the `elif` chain in `pywal.py`
(note `cols16_method`, which is recognized but has no default entry). -/
def mapped_keys : List String :=
  ["mode", "cols16", "cols16_method", "saturate", "backend", "contrast",
   "skip_wallpaper", "skip_terminals", "skip_tty", "skip_reload"]

/-- `load_config` of `pywal.py` (section `[Pywal]`). -/
def load (file : Option (List String)) : List (String × String) :=
  load_config "[Pywal]" mapped_keys default_settings file

/-- The argparse namespace of `pywal.py`.  `--saturate` defaults to the
float `0.6` and `--contrast` to `1.0`, so these are never `None`;
`--cols16-method` defaults to the string `"darken"`. -/
structure Args where
  image : String
  config : Option String
  mode : String
  cols16 : Bool
  cols16_method : String
  saturate : Option ℚ
  backend : String
  contrast : Option ℚ
  skip_wallpaper : Bool
  skip_terminals : Bool
  skip_tty : Bool
  skip_reload : Bool
  quiet : Bool
  verbose : Bool

/-- The argparse defaults of `pywal.py` with only `--image` given. -/
def defaultArgs (img : String) : Args :=
  { image := img, config := none, mode := "dark", cols16 := false,
    cols16_method := "darken", saturate := some (mkRat 3 5),
    backend := "wal", contrast := some (mkRat 1 1), skip_wallpaper := false,
    skip_terminals := false, skip_tty := false, skip_reload := false,
    quiet := false, verbose := false }

/-- `build_pywal_command(args, settings)` from `pywal.py`
(`hasattr(args, "cols16_method")` is always true on a parsed
namespace, so the `"darken"` fallback of that `if` is dead). -/
def build_pywal_command (args : Args) (settings : List (String × String)) :
    Option (List String) := do
  let cmd := ["wal", "-i", args.image]
  let smode ← dictGet settings "mode"
  let mode := if args.mode ≠ "" then args.mode else smode
  let cmd := if mode = "light" then cmd ++ ["-l"] else cmd
  let scols ← dictGet settings "cols16"
  let cols16 := args.cols16 || pyLower scols == "true"
  let cmd := if cols16 then cmd ++ ["--cols16", args.cols16_method] else cmd
  let saturate ← match args.saturate with
    | some v => some v
    | none => do
        let s ← dictGet settings "saturate"
        pyFloat s
  let cmd := cmd ++ ["--saturate", floatStr saturate]
  let sback ← dictGet settings "backend"
  let backend := if args.backend ≠ "" then args.backend else sback
  let cmd := if backend ≠ "" && backend ≠ "wal" then
    cmd ++ ["--backend", backend] else cmd
  let contrast ← match args.contrast with
    | some v => some v
    | none => do
        let s ← dictGet settings "contrast"
        pyFloat s
  let cmd := cmd ++ ["--contrast", floatStr contrast]
  let sw ← dictGet settings "skip_wallpaper"
  let cmd := if args.skip_wallpaper || pyLower sw == "true" then cmd ++ ["-n"] else cmd
  let ster ← dictGet settings "skip_terminals"
  let cmd := if args.skip_terminals || pyLower ster == "true" then cmd ++ ["-s"] else cmd
  let stty ← dictGet settings "skip_tty"
  let cmd := if args.skip_tty || pyLower stty == "true" then cmd ++ ["-t"] else cmd
  let srel ← dictGet settings "skip_reload"
  let cmd := if args.skip_reload || pyLower srel == "true" then cmd ++ ["-e"] else cmd
  let cmd := if args.quiet then cmd ++ ["-q"] else cmd
  some cmd

/-- `run_pywal(cmd)`: the debug echo, the relayed streams, and the
success flag `returncode == 0`. -/
def run_pywal (cmd : List String) (r : ProcResult) : List Out × Bool :=
  (Out.stdout ("Running: " ++ String.intercalate " " cmd) :: relayOutput r,
   r.returncode == 0)

/-- The run-and-exit portion of `main()` in `pywal.py`. -/
def pywal_main (cmd : List String) (r : ProcResult) : List Out × ℕ :=
  let run := run_pywal cmd r
  (run.1, script_exit run.2)

end Pywal

namespace Swww

/-- The launch tail of `__main__` in `swww.py`: the command echo, then
`exec_async(command)` — a bare `subprocess.Popen` with no wait, no
capture and no `returncode` read — inside `try/except`.  `toolResult`
is the eventual result of the detached tool; it is deliberately
unused, because the script never observes it.  `launchError` is the
exception `Popen` itself may raise (e.g. the binary is missing): on it
the script prints the error with a plain `print` — to stdout — and
exits 1; otherwise it prints the success line and falls off the end of
the module with exit status 0, whatever the tool later does. -/
def mainLaunch (cmd : List String) (launchError : Option String)
    (_toolResult : ProcResult) : List Out × ℕ :=
  let echo := Out.stdout ("üöÄ Executing: " ++ String.intercalate " " cmd)
  match launchError with
  | none => ([echo, Out.stdout "‚úÖ Wallpaper application started successfully!"], 0)
  | some e => ([echo, Out.stdout ("‚ùå Error: " ++ e)], 1)

end Swww

namespace Material

/-- One lowercase hexadecimal digit (`{:x}` formatting of `0 ≤ n < 16`). -/
def hexDigitChar (n : ℕ) : Char :=
  if n < 10 then Char.ofNat (48 + n) else Char.ofNat (87 + n)

/-- The digits of `n` written in base 16 (no leading zeros except for 0). -/
def natToHex (n : ℕ) : List Char :=
  if n < 16 then [hexDigitChar n]
  else natToHex (n / 16) ++ [hexDigitChar (n % 16)]
termination_by n
decreasing_by exact Nat.div_lt_self (by omega) (by omega)

/-- Python `"{:02x}".format(n)`: lowercase hex, zero-padded to width 2. -/
def format02x (n : ℕ) : String :=
  String.mk (List.replicate (2 - (natToHex n).length) '0' ++ natToHex n)

/-- `rgba_to_hex(rgba)` from `material.py`:
`"#{:02x}{:02x}{:02x}".format(*rgba)` consumes the first three list
elements and ignores any extra ones (`str.format` discards unused
positional arguments); fewer than three elements raise, modelled by
`none`. -/
def rgba_to_hex (rgba : List ℕ) : Option String :=
  match rgba with
  | r :: g :: b :: _ => some ("#" ++ format02x r ++ format02x g ++ format02x b)
  | _ => none

/-- Whether a character is a lowercase hexadecimal digit. -/
def isHexLower (c : Char) : Bool :=
  ('0' ≤ c && c ≤ '9') || ('a' ≤ c && c ≤ 'f')

/-- Python `round` (round half to even, "banker's rounding") on a real
argument; the floating-point arguments of the source are modelled by
reals. -/
noncomputable def pyround (x : ℝ) : ℤ :=
  if Int.fract x = 1 / 2 then (if Even ⌊x⌋ then ⌊x⌋ else ⌊x⌋ + 1)
  else round x

/-- `calculate_optimal_size(width, height, bitmap_size)` from
`material.py`: shrink the dimensions by `sqrt(bitmap_area/image_area)`
when the image area exceeds `bitmap_size**2`, rounding and clamping
each result up to at least 1. -/
noncomputable def calculate_optimal_size (width height bitmap_size : ℕ) :
    ℤ × ℤ :=
  let image_area := width * height
  let bitmap_area := bitmap_size ^ 2
  let scale : ℝ :=
    if bitmap_area < image_area then
      Real.sqrt ((bitmap_area : ℝ) / (image_area : ℝ))
    else 1
  let new_width := pyround ((width : ℝ) * scale)
  let new_height := pyround ((height : ℝ) * scale)
  (if new_width = 0 then 1 else new_width,
   if new_height = 0 then 1 else new_height)

/-- The resize guard of `get_colors_from_img`:
`if wsize_new < wsize or hsize_new < hsize: image = image.resize(...)`. -/
noncomputable def resizes (w h : ℕ) : Prop :=
  (calculate_optimal_size w h 128).1 < (w : ℤ) ∨
  (calculate_optimal_size w h 128).2 < (h : ℤ)

/-- The cache output path constant of `material.py`
(`~/.cache/wallpapers/material/colors.json`, `~` left unexpanded). -/
def cacheColorsPath : String := "~/.cache/wallpapers/material/colors.json"

/-- `extract_colors(wallpaper_path, output_path)` from `material.py`:
only the control flow and the printed lines are modelled (the color
extraction itself is delegated to the third-party library).  The
missing-file branch prints its error with a plain `print`, i.e. to
stdout, and returns `None`. -/
def extract_colors (fileExists : Bool) (wallpaper_path : String)
    (output_path : Option String) : List Out × Option String :=
  if !fileExists then
    ([Out.stdout ("Error: Wallpaper file not found: " ++ wallpaper_path)],
     none)
  else
    let op := match output_path with
      | none => cacheColorsPath
      | some p => if p = "" then cacheColorsPath else p
    ([Out.stdout ("Material colors extracted and saved to: " ++ op)], some op)

/-- The `__main__` block of `material.py` (output stream and exit
status): a missing wallpaper argument exits 1; otherwise
`extract_colors` runs and the script falls off the end of the module —
exit status 0 — whether or not `extract_colors` failed. -/
def material_main (fileExists : Bool) (wallpaperPath : Option String)
    (outputArg : String) : List Out × ℕ :=
  match wallpaperPath with
  | none =>
      ([Out.stdout
         "Error: No wallpaper path provided. Use --image or provide as positional argument."],
       1)
  | some wp =>
      let res := extract_colors fileExists wp (some outputArg)
      match res.2 with
      | some op =>
          (res.1 ++ [Out.stdout ("Material colors extracted and saved to: " ++ op)], 0)
      | none => (res.1, 0)

end Material

end Wallselect

/-! ## Helper lemmas -/

namespace Wallselect

lemma pyChoice_mem {α : Type} (l : List α) (d : α) (n : ℕ) (h : l ≠ []) :
    pyChoice l d n ∈ l := by
  unfold pyChoice
  have hlen : 0 < l.length := List.length_pos.mpr h
  have hlt : n % l.length < l.length := Nat.mod_lt _ hlen
  rw [List.getD_eq_getElem l d hlt]
  exact List.getElem_mem hlt

lemma randint_bounds (a b n : ℕ) (h : a ≤ b) :
    a ≤ randint a b n ∧ randint a b n ≤ b := by
  unfold randint
  have : n % (b - a + 1) < b - a + 1 := Nat.mod_lt _ (by omega)
  omega

end Wallselect

/-! ## Claim theorems -/

/-- C2: a bare invocation of `swww.py` with only an image path (no
`--random`, theme left at its default `"random"`, no transition flags)
builds exactly `["swww", "img", image_path]`, with no transition
options at all: the `noResize` flag defaults to `False`, survives the
`is not None` filter, makes the options dictionary non-empty, and so
skips the themed-generation fallback the adjacent comment promises. -/
theorem C2_bare_invocation_builds_plain_command (p : String) (t : ℕ → ℕ) :
    Wallselect.Swww.mainCommand (Wallselect.Swww.defaultArgs p) t =
      ["swww", "img", p] := rfl

/-- C1: evaluation at the failing input.  With no `--mode` flag on the
command line and a config file whose own section sets `mode=light`,
every backend still emits dark mode: the argparse default `"dark"` is
truthy, so `args.mode if args.mode else settings["mode"]` never reads
the config value even though `load_config` did store it.  The same
truthy-default shadowing kills the config values of `type`, `contrast`
(matugen), `saturate`, `backend`, `contrast`, `cols16_method` (pywal). -/
theorem C1_config_mode_never_used :
    (Wallselect.dictGet
        (Wallselect.Hellwal.load (some ["[Hellwal]", "mode=light"])) "mode" =
      some "light") ∧
    (Wallselect.Hellwal.build_hellwal_command
        (Wallselect.Hellwal.defaultArgs "wall.png")
        (Wallselect.Hellwal.load (some ["[Hellwal]", "mode=light"])) =
      some ["hellwal", "-i", "wall.png", "-d", "-n", "0.2", "-b", "0.2"]) ∧
    (Wallselect.Matugen.build_matugen_command
        (Wallselect.Matugen.defaultArgs "wall.png")
        (Wallselect.Matugen.load (some ["[Matugen]", "mode=light"])) =
      some ["matugen", "image", "wall.png", "--mode", "dark",
            "--type", "scheme-tonal-spot", "--contrast", "0"]) ∧
    (Wallselect.Pywal.build_pywal_command
        (Wallselect.Pywal.defaultArgs "wall.png")
        (Wallselect.Pywal.load (some ["[Pywal]", "mode=light"])) =
      some ["wal", "-i", "wall.png", "--cols16", "darken",
            "--saturate", "0.6", "--contrast", "1.0"]) := by
  refine ⟨?_, ?_, ?_, ?_⟩ <;> decide

/-- C3 counterexample: `material.py`, run on a nonexistent wallpaper
path, prints its error with a plain `print` — to stdout, not stderr —
and falls off the end of the module with exit status 0, not 1. -/
theorem C3_material_missing_file_stdout_exit0 :
    Wallselect.Material.material_main false (some "missing.png")
        Wallselect.Material.cacheColorsPath =
      ([Wallselect.Out.stdout "Error: Wallpaper file not found: missing.png"],
       0) := by decide

/-- C3 amended: when the external tool exits nonzero, each of
`hellwall.py`, `matugen.py` and `pywal.py` exits with status 1 and
forwards the tool's stderr to its own stderr.  `material.py`, however,
handles a nonexistent wallpaper path by printing the error to stdout
and exiting with status 0.  And `swww.py` never observes the tool's
exit status at all: its behaviour is independent of the detached
tool's result and it exits 0 whenever the launch succeeded, while the
one failure it does handle — an exception raised by `Popen` itself —
is printed to stdout (nothing ever goes to its stderr), followed by
exit status 1. -/
theorem C3_failure_handling_amended :
    (∀ cmd (r : Wallselect.ProcResult), r.returncode ≠ 0 →
      (Wallselect.Hellwal.hellwal_main cmd r).2 = 1 ∧
      (r.stderr ≠ "" →
        Wallselect.Out.stderr r.stderr ∈ (Wallselect.Hellwal.hellwal_main cmd r).1)) ∧
    (∀ cmd (r : Wallselect.ProcResult), r.returncode ≠ 0 →
      (Wallselect.Matugen.matugen_main cmd r).2 = 1 ∧
      (r.stderr ≠ "" →
        Wallselect.Out.stderr r.stderr ∈ (Wallselect.Matugen.matugen_main cmd r).1)) ∧
    (∀ cmd (r : Wallselect.ProcResult), r.returncode ≠ 0 →
      (Wallselect.Pywal.pywal_main cmd r).2 = 1 ∧
      (r.stderr ≠ "" →
        Wallselect.Out.stderr r.stderr ∈ (Wallselect.Pywal.pywal_main cmd r).1)) ∧
    (∀ p out, (Wallselect.Material.material_main false (some p) out).2 = 0 ∧
      (Wallselect.Material.material_main false (some p) out).1 =
        [Wallselect.Out.stdout ("Error: Wallpaper file not found: " ++ p)]) ∧
    ((∀ cmd (t t' : Wallselect.ProcResult),
        Wallselect.Swww.mainLaunch cmd none t = Wallselect.Swww.mainLaunch cmd none t') ∧
      (∀ cmd (t : Wallselect.ProcResult),
        (Wallselect.Swww.mainLaunch cmd none t).2 = 0) ∧
      (∀ cmd e (t : Wallselect.ProcResult),
        (Wallselect.Swww.mainLaunch cmd (some e) t).2 = 1 ∧
        ∀ m, Wallselect.Out.stderr m ∉ (Wallselect.Swww.mainLaunch cmd (some e) t).1)) := by
  refine ⟨?_, ?_, ?_, ?_, ?_⟩
  · intro cmd r h
    constructor
    · simp [Wallselect.Hellwal.hellwal_main, Wallselect.Hellwal.run_hellwal,
        Wallselect.script_exit, h]
    · intro hs
      simp [Wallselect.Hellwal.hellwal_main, Wallselect.Hellwal.run_hellwal,
        Wallselect.relayOutput, hs]
  · intro cmd r h
    constructor
    · simp [Wallselect.Matugen.matugen_main, Wallselect.Matugen.run_matugen,
        Wallselect.script_exit, h]
    · intro hs
      simp [Wallselect.Matugen.matugen_main, Wallselect.Matugen.run_matugen,
        Wallselect.relayOutput, hs]
  · intro cmd r h
    constructor
    · simp [Wallselect.Pywal.pywal_main, Wallselect.Pywal.run_pywal,
        Wallselect.script_exit, h]
    · intro hs
      simp [Wallselect.Pywal.pywal_main, Wallselect.Pywal.run_pywal,
        Wallselect.relayOutput, hs]
  · intro p out
    constructor
    · rfl
    · rfl
  · refine ⟨fun cmd t t' => rfl, fun cmd t => rfl, ?_⟩
    intro cmd e t
    refine ⟨rfl, ?_⟩
    intro m
    simp [Wallselect.Swww.mainLaunch]

/-- C3 witness: the amended theorem applied to hellwal failing with
exit code 2 and stderr "boom". -/
theorem C3_failure_handling_witness :
    (Wallselect.Hellwal.hellwal_main ["hellwal"] ⟨"", "boom", 2⟩).2 = 1 ∧
    Wallselect.Out.stderr "boom" ∈
      (Wallselect.Hellwal.hellwal_main ["hellwal"] ⟨"", "boom", 2⟩).1 := by
  have h := C3_failure_handling_amended.1 ["hellwal"] ⟨"", "boom", 2⟩ (by decide)
  exact ⟨h.1, h.2 (by decide)⟩

/-- C4 counterexample: when the external binary exits with status 2,
`matugen.py` exits with status 1, not 2 — the exit status is collapsed
to `0 if success else 1` rather than relayed. -/
theorem C4_exit_status_not_relayed :
    ((Wallselect.Matugen.matugen_main ["matugen"] ⟨"", "", 2⟩).2 : ℤ) = 1 ∧
    (⟨"", "", 2⟩ : Wallselect.ProcResult).returncode = 2 ∧
    ((Wallselect.Matugen.matugen_main ["matugen"] ⟨"", "", 2⟩).2 : ℤ) ≠
      (⟨"", "", 2⟩ : Wallselect.ProcResult).returncode := by decide

/-- C4 amended: each generator script forwards the binary's captured
stdout to its stdout and stderr to its stderr (each when non-empty),
and exits 0 exactly when the binary exited 0 and 1 otherwise — the
exact nonzero exit code is not preserved.  `swww.py` launches its tool
with a fire-and-forget `Popen`: it reads neither the tool's output nor
its exit status, so its own output and exit status are independent of
the tool's result, and it exits 0 whenever the launch itself
succeeded. -/
theorem C4_relay_amended :
    ∀ cmd (r : Wallselect.ProcResult),
    ((Wallselect.Hellwal.hellwal_main cmd r).2 = if r.returncode = 0 then 0 else 1) ∧
    ((Wallselect.Hellwal.hellwal_main cmd r).2 = 0 ↔ r.returncode = 0) ∧
    (r.stdout ≠ "" →
      Wallselect.Out.stdout r.stdout ∈ (Wallselect.Hellwal.hellwal_main cmd r).1) ∧
    (r.stderr ≠ "" →
      Wallselect.Out.stderr r.stderr ∈ (Wallselect.Hellwal.hellwal_main cmd r).1) ∧
    ((Wallselect.Matugen.matugen_main cmd r).2 = if r.returncode = 0 then 0 else 1) ∧
    ((Wallselect.Matugen.matugen_main cmd r).2 = 0 ↔ r.returncode = 0) ∧
    (r.stdout ≠ "" →
      Wallselect.Out.stdout r.stdout ∈ (Wallselect.Matugen.matugen_main cmd r).1) ∧
    (r.stderr ≠ "" →
      Wallselect.Out.stderr r.stderr ∈ (Wallselect.Matugen.matugen_main cmd r).1) ∧
    ((Wallselect.Pywal.pywal_main cmd r).2 = if r.returncode = 0 then 0 else 1) ∧
    ((Wallselect.Pywal.pywal_main cmd r).2 = 0 ↔ r.returncode = 0) ∧
    (r.stdout ≠ "" →
      Wallselect.Out.stdout r.stdout ∈ (Wallselect.Pywal.pywal_main cmd r).1) ∧
    (r.stderr ≠ "" →
      Wallselect.Out.stderr r.stderr ∈ (Wallselect.Pywal.pywal_main cmd r).1) ∧
    (∀ t' : Wallselect.ProcResult,
      Wallselect.Swww.mainLaunch cmd none r = Wallselect.Swww.mainLaunch cmd none t') ∧
    (Wallselect.Swww.mainLaunch cmd none r).2 = 0 := by
  intro cmd r
  have hexit : Wallselect.script_exit (r.returncode == 0) =
      if r.returncode = 0 then 0 else 1 := by
    by_cases h : r.returncode = 0 <;> simp [Wallselect.script_exit, h]
  have hiff : Wallselect.script_exit (r.returncode == 0) = 0 ↔ r.returncode = 0 := by
    by_cases h : r.returncode = 0 <;> simp [Wallselect.script_exit, h]
  have hout : r.stdout ≠ "" →
      Wallselect.Out.stdout r.stdout ∈ Wallselect.relayOutput r := by
    intro hs
    simp [Wallselect.relayOutput, hs]
  have herr : r.stderr ≠ "" →
      Wallselect.Out.stderr r.stderr ∈ Wallselect.relayOutput r := by
    intro hs
    simp [Wallselect.relayOutput, hs]
  exact ⟨hexit, hiff,
    fun hs => List.mem_cons_of_mem _ (hout hs),
    fun hs => List.mem_cons_of_mem _ (herr hs),
    hexit, hiff,
    fun hs => List.mem_cons_of_mem _ (hout hs),
    fun hs => List.mem_cons_of_mem _ (herr hs),
    hexit, hiff,
    fun hs => List.mem_cons_of_mem _ (hout hs),
    fun hs => List.mem_cons_of_mem _ (herr hs),
    fun t' => rfl, rfl⟩

/-- C4 witness: the amended theorem applied to a run that exited 3
with output on both streams, and to the swww launch tail at the same
tool result. -/
theorem C4_relay_witness :
    (Wallselect.Hellwal.hellwal_main ["hellwal"] ⟨"out", "err", 3⟩).2 = 1 ∧
    Wallselect.Out.stdout "out" ∈
      (Wallselect.Hellwal.hellwal_main ["hellwal"] ⟨"out", "err", 3⟩).1 ∧
    Wallselect.Out.stderr "err" ∈
      (Wallselect.Hellwal.hellwal_main ["hellwal"] ⟨"out", "err", 3⟩).1 ∧
    (Wallselect.Swww.mainLaunch ["swww"] none ⟨"out", "err", 3⟩).2 = 0 := by
  have h := C4_relay_amended ["hellwal"] ⟨"out", "err", 3⟩
  have hs := C4_relay_amended ["swww"] ⟨"out", "err", 3⟩
  refine ⟨by rw [h.1]; decide, h.2.2.1 (by decide), h.2.2.2.1 (by decide), ?_⟩
  exact hs.2.2.2.2.2.2.2.2.2.2.2.2.2

namespace Wallselect.Swww

lemma mem_of_choice_sub {l L : List String} (d : String) (n : ℕ)
    (hne : l ≠ []) (hsub : ∀ x ∈ l, x ∈ L) : pyChoice l d n ∈ L :=
  hsub _ (Wallselect.pyChoice_mem l d n hne)

lemma random_options_type (t : ℕ → ℕ) :
    dictGet (generate_random_swww_options t) "transitionType" =
      some (.str (pyChoice transition_types "" (t 9))) := rfl

lemma themed_default (theme : String) (t : ℕ → ℕ)
    (h1 : theme ≠ "smooth") (h2 : theme ≠ "dramatic")
    (h3 : theme ≠ "minimal") (h4 : theme ≠ "dynamic") :
    generate_themed_transition theme t =
      generate_random_swww_options (fun n => t (20 + n)) := by
  unfold generate_themed_transition
  by_cases hr : theme = "random"
  · simp [hr]
  · simp [dictGet, Ne.symm h1, Ne.symm h2, Ne.symm h3, Ne.symm h4, hr]

end Wallselect.Swww

/-- C5 counterexample: the `dynamic` theme of
`generate_themed_transition` can select the transition type
`"diagonal"` (its choice list is `["left", "right", "top", "bottom",
"diagonal"]`), and `"diagonal"` is not among the 19 transition types
that `list_available_transitions` prints. -/
theorem C5_dynamic_can_pick_diagonal :
    Wallselect.dictGet
        (Wallselect.Swww.generate_themed_transition "dynamic"
          (fun n => if n = 8 then 4 else 0)) "transitionType" =
      some (.str "diagonal") ∧
    "diagonal" ∉ Wallselect.Swww.available_transitions := by
  constructor
  · rfl
  · decide

/-- C5 amended: `generate_random_swww_options` always selects its
transition type from the 19 types `list_available_transitions` prints;
`generate_themed_transition` does so for every theme except
`dynamic`, whose selection may additionally be `"diagonal"`, a type
not in that list. -/
theorem C5_transition_enumeration_amended :
    (∀ t, ∃ ty,
      Wallselect.dictGet (Wallselect.Swww.generate_random_swww_options t)
          "transitionType" = some (.str ty) ∧
      ty ∈ Wallselect.Swww.available_transitions) ∧
    (∀ theme t, ∃ ty,
      Wallselect.dictGet (Wallselect.Swww.generate_themed_transition theme t)
          "transitionType" = some (.str ty) ∧
      ty ∈ "diagonal" :: Wallselect.Swww.available_transitions) ∧
    (∀ theme t, theme ≠ "dynamic" → ∃ ty,
      Wallselect.dictGet (Wallselect.Swww.generate_themed_transition theme t)
          "transitionType" = some (.str ty) ∧
      ty ∈ Wallselect.Swww.available_transitions) := by
  have hrand : ∀ t, ∃ ty,
      Wallselect.dictGet (Wallselect.Swww.generate_random_swww_options t)
          "transitionType" = some (.str ty) ∧
      ty ∈ Wallselect.Swww.available_transitions := by
    intro t
    exact ⟨_, Wallselect.Swww.random_options_type t,
      Wallselect.Swww.mem_of_choice_sub "" (t 9) (by decide) (by decide)⟩
  refine ⟨hrand, ?_, ?_⟩
  · intro theme t
    by_cases h1 : theme = "smooth"
    · subst h1
      exact ⟨_, rfl, Wallselect.Swww.mem_of_choice_sub "" (t 0) (by decide) (by decide)⟩
    by_cases h2 : theme = "dramatic"
    · subst h2
      exact ⟨_, rfl, Wallselect.Swww.mem_of_choice_sub "" (t 3) (by decide) (by decide)⟩
    by_cases h3 : theme = "minimal"
    · subst h3
      exact ⟨"fade", rfl, by decide⟩
    by_cases h4 : theme = "dynamic"
    · subst h4
      exact ⟨_, rfl, Wallselect.Swww.mem_of_choice_sub "" (t 8) (by decide) (by decide)⟩
    rw [Wallselect.Swww.themed_default theme t h1 h2 h3 h4]
    obtain ⟨ty, hty, hmem⟩ := hrand (fun n => t (20 + n))
    exact ⟨ty, hty, List.mem_cons_of_mem _ hmem⟩
  · intro theme t h4
    by_cases h1 : theme = "smooth"
    · subst h1
      exact ⟨_, rfl, Wallselect.Swww.mem_of_choice_sub "" (t 0) (by decide) (by decide)⟩
    by_cases h2 : theme = "dramatic"
    · subst h2
      exact ⟨_, rfl, Wallselect.Swww.mem_of_choice_sub "" (t 3) (by decide) (by decide)⟩
    by_cases h3 : theme = "minimal"
    · subst h3
      exact ⟨"fade", rfl, by decide⟩
    rw [Wallselect.Swww.themed_default theme t h1 h2 h3 h4]
    exact hrand (fun n => t (20 + n))

/-- C5 witness: the amended theorem's third conjunct applied to the
`smooth` theme and the all-zero tape. -/
theorem C5_transition_enumeration_witness :
    ∃ ty,
      Wallselect.dictGet
          (Wallselect.Swww.generate_themed_transition "smooth" (fun _ => 0))
          "transitionType" = some (.str ty) ∧
      ty ∈ Wallselect.Swww.available_transitions :=
  C5_transition_enumeration_amended.2.2 "smooth" (fun _ => 0) (by decide)

namespace Wallselect.Swww

lemma random_options_fps (t : ℕ → ℕ) :
    dictGet (generate_random_swww_options t) "transitionFps" =
      some (.int (pyChoice [60, 60, 60] 0 (t 8))) := rfl

lemma random_options_step (t : ℕ → ℕ) :
    dictGet (generate_random_swww_options t) "transitionStep" =
      some (.int (pyChoice [200, 220, 240, 255, 120, 140, 160, 180, 60, 80, 100]
        0 (t 6))) := rfl

lemma random_options_duration (t : ℕ → ℕ) :
    dictGet (generate_random_swww_options t) "transitionDuration" =
      some (.num (pyChoice [1/2, 4/5, 1, 6/5, 3/2, 2, 5/2, 3, 4, 5] 0 (t 7))) := rfl

end Wallselect.Swww

/-- C9: the invariants of every dictionary `generate_random_swww_options`
returns: `resize`, `transitionType`, `transitionStep`,
`transitionDuration`, `transitionFps`, `transitionAngle` and
`transitionPos` are always present (so no `None` value survives),
`transitionFps` is always 60, `transitionStep` lies in `[60, 255]`,
`transitionDuration` in `[0.5, 5.0]`, `transitionAngle` in `[0, 359]`,
and `filter` / `fillColor` are present exactly when the corresponding
draw from their `None`-weighted choice lists was not `None`. -/
theorem C9_random_options_invariants (t : ℕ → ℕ) :
    Wallselect.dictGet (Wallselect.Swww.generate_random_swww_options t)
        "transitionFps" = some (.int 60) ∧
    (∃ s : ℤ, Wallselect.dictGet (Wallselect.Swww.generate_random_swww_options t)
        "transitionStep" = some (.int s) ∧ 60 ≤ s ∧ s ≤ 255) ∧
    (∃ d : ℚ, Wallselect.dictGet (Wallselect.Swww.generate_random_swww_options t)
        "transitionDuration" = some (.num d) ∧ 1/2 ≤ d ∧ d ≤ 5) ∧
    (∃ a : ℤ, Wallselect.dictGet (Wallselect.Swww.generate_random_swww_options t)
        "transitionAngle" = some (.int a) ∧ 0 ≤ a ∧ a ≤ 359) ∧
    (Wallselect.dictGet (Wallselect.Swww.generate_random_swww_options t)
        "resize").isSome = true ∧
    (Wallselect.dictGet (Wallselect.Swww.generate_random_swww_options t)
        "transitionType").isSome = true ∧
    (Wallselect.dictGet (Wallselect.Swww.generate_random_swww_options t)
        "transitionPos").isSome = true ∧
    Wallselect.dictGet (Wallselect.Swww.generate_random_swww_options t)
        "filter" =
      (Wallselect.pyChoice Wallselect.Swww.filtersList none (t 13)).map .str ∧
    Wallselect.dictGet (Wallselect.Swww.generate_random_swww_options t)
        "fillColor" =
      (Wallselect.pyChoice Wallselect.Swww.fillColorsList none (t 14)).map .str := by
  refine ⟨?_, ?_, ?_, ?_, rfl, rfl, rfl, ?_, ?_⟩
  · rw [Wallselect.Swww.random_options_fps]
    have hmem := Wallselect.pyChoice_mem ([60, 60, 60] : List ℤ) 0 (t 8) (by decide)
    have hall : ∀ x ∈ ([60, 60, 60] : List ℤ), x = 60 := by decide
    rw [hall _ hmem]
  · refine ⟨_, Wallselect.Swww.random_options_step t, ?_⟩
    have hmem := Wallselect.pyChoice_mem
      ([200, 220, 240, 255, 120, 140, 160, 180, 60, 80, 100] : List ℤ) 0 (t 6)
      (by decide)
    have hall : ∀ x ∈ ([200, 220, 240, 255, 120, 140, 160, 180, 60, 80, 100] : List ℤ),
        60 ≤ x ∧ x ≤ 255 := by decide
    exact hall _ hmem
  · refine ⟨_, Wallselect.Swww.random_options_duration t, ?_⟩
    have hmem := Wallselect.pyChoice_mem
      ([1/2, 4/5, 1, 6/5, 3/2, 2, 5/2, 3, 4, 5] : List ℚ) 0 (t 7) (by simp)
    have hall : ∀ x ∈ ([1/2, 4/5, 1, 6/5, 3/2, 2, 5/2, 3, 4, 5] : List ℚ),
        1/2 ≤ x ∧ x ≤ 5 := by
      intro x hx
      fin_cases hx <;> norm_num
    exact hall _ hmem
  · refine ⟨_, rfl, ?_⟩
    by_cases h1 : Wallselect.pyChoice Wallselect.Swww.transition_types "" (t 9) = "wipe" ∨
        Wallselect.pyChoice Wallselect.Swww.transition_types "" (t 9) = "wave" ∨
        Wallselect.pyChoice Wallselect.Swww.transition_types "" (t 9) = "spiral"
    · have hr := Wallselect.randint_bounds 0 359 (t 10) (by omega)
      simp only [if_pos h1]
      omega
    by_cases h2 : Wallselect.pyChoice Wallselect.Swww.transition_types "" (t 9) = "grow" ∨
        Wallselect.pyChoice Wallselect.Swww.transition_types "" (t 9) = "center" ∨
        Wallselect.pyChoice Wallselect.Swww.transition_types "" (t 9) = "outer"
    · simp only [if_neg h1, if_pos h2]
      have hmem := Wallselect.pyChoice_mem
        ([0, 45, 90, 135, 180, 225, 270, 315] : List ℤ) 0 (t 10) (by decide)
      have hall : ∀ x ∈ ([0, 45, 90, 135, 180, 225, 270, 315] : List ℤ),
          0 ≤ x ∧ x ≤ 359 := by decide
      exact hall _ hmem
    · have hr := Wallselect.randint_bounds 0 359 (t 10) (by omega)
      simp only [if_neg h1, if_neg h2]
      omega
  · cases hf : Wallselect.pyChoice Wallselect.Swww.filtersList none (t 13) <;>
    cases hg : Wallselect.pyChoice Wallselect.Swww.fillColorsList none (t 14) <;>
    simp [Wallselect.Swww.generate_random_swww_options, Wallselect.dictGet, hf, hg]
  · cases hf : Wallselect.pyChoice Wallselect.Swww.filtersList none (t 13) <;>
    cases hg : Wallselect.pyChoice Wallselect.Swww.fillColorsList none (t 14) <;>
    simp [Wallselect.Swww.generate_random_swww_options, Wallselect.dictGet, hf, hg]

namespace Wallselect

lemma dictKeys_dictSet {α : Type} (s : List (String × α)) (k : String) (v : α) :
    dictKeys (dictSet s k v) =
      if k ∈ dictKeys s then dictKeys s else dictKeys s ++ [k] := by
  induction s with
  | nil => simp [dictSet, dictKeys]
  | cons hd tl ih =>
      obtain ⟨k', v'⟩ := hd
      by_cases h : k' = k
      · subst h; simp [dictSet, dictKeys]
      · have hne : k ≠ k' := fun hh => h hh.symm
        simp only [dictSet, if_neg h, dictKeys, List.map_cons, List.mem_cons, hne,
          false_or]
        by_cases hk : k ∈ List.map Prod.fst tl
        · rw [if_pos hk]
          have ih2 := ih
          simp only [dictKeys, if_pos hk] at ih2
          rw [ih2]
        · rw [if_neg hk]
          have ih2 := ih
          simp only [dictKeys, if_neg hk] at ih2
          rw [ih2, List.cons_append]

lemma mem_dictKeys_dictSet_of_mem {α : Type} (s : List (String × α))
    (k : String) (v : α) (x : String) (hx : x ∈ dictKeys s) :
    x ∈ dictKeys (dictSet s k v) := by
  rw [dictKeys_dictSet]
  split_ifs <;> simp [hx]

lemma mem_of_mem_dictKeys_dictSet {α : Type} (s : List (String × α))
    (k : String) (v : α) (x : String) (hx : x ∈ dictKeys (dictSet s k v)) :
    x ∈ dictKeys s ∨ x = k := by
  rw [dictKeys_dictSet] at hx
  split_ifs at hx
  · exact Or.inl hx
  · simpa using hx

lemma applyMapped_keys_sup (m : List String) (s : List (String × String))
    (key val x : String) (hx : x ∈ dictKeys s) :
    x ∈ dictKeys (applyMapped m s key val) := by
  unfold applyMapped
  split_ifs
  · exact mem_dictKeys_dictSet_of_mem _ _ _ _ hx
  · exact hx

lemma applyMapped_keys_sub (m : List String) (s : List (String × String))
    (key val x : String) (hx : x ∈ dictKeys (applyMapped m s key val)) :
    x ∈ dictKeys s ∨ x ∈ m := by
  unfold applyMapped at hx
  split_ifs at hx with h
  · rcases mem_of_mem_dictKeys_dictSet _ _ _ _ hx with h' | h'
    · exact Or.inl h'
    · subst h'; exact Or.inr h
  · exact Or.inl hx

lemma processLine_keys_sup (sec : String) (m : List String)
    (st : Bool × List (String × String)) (l : String) (x : String)
    (hx : x ∈ dictKeys st.2) : x ∈ dictKeys (processLine sec m st l).2 := by
  simp only [processLine]
  split_ifs
  · exact hx
  · exact hx
  · exact hx
  · exact applyMapped_keys_sup _ _ _ _ _ hx
  · exact hx

lemma processLine_keys_sub (sec : String) (m : List String)
    (st : Bool × List (String × String)) (l : String) (x : String)
    (hx : x ∈ dictKeys (processLine sec m st l).2) :
    x ∈ dictKeys st.2 ∨ x ∈ m := by
  simp only [processLine] at hx
  split_ifs at hx
  · exact Or.inl hx
  · exact Or.inl hx
  · exact Or.inl hx
  · exact applyMapped_keys_sub _ _ _ _ _ hx
  · exact Or.inl hx

lemma foldl_processLine_keys (sec : String) (m : List String) :
    ∀ (lines : List String) (st : Bool × List (String × String)),
      (∀ x ∈ dictKeys st.2, x ∈ dictKeys (lines.foldl (processLine sec m) st).2) ∧
      (∀ x ∈ dictKeys (lines.foldl (processLine sec m) st).2,
        x ∈ dictKeys st.2 ∨ x ∈ m) := by
  intro lines
  induction lines with
  | nil => exact fun st => ⟨fun x hx => hx, fun x hx => Or.inl hx⟩
  | cons l rest ih =>
      intro st
      refine ⟨?_, ?_⟩
      · intro x hx
        exact (ih (processLine sec m st l)).1 x (processLine_keys_sup sec m st l x hx)
      · intro x hx
        rcases (ih (processLine sec m st l)).2 x hx with h | h
        · exact processLine_keys_sub sec m st l x h
        · exact Or.inr h

lemma processLine_skip (sec : String) (m : List String)
    (s2 : List (String × String)) (l : String)
    (hsec : pyContains sec '=' = false)
    (hl : pyContains (pyStrip l) '=' = true) :
    processLine sec m (false, s2) l = (false, s2) := by
  simp only [processLine]
  by_cases h1 : pyStrip l = "" || pyStartsWith (pyStrip l) '#'
  · simp [h1]
  by_cases h2 : pyStrip l = sec
  · rw [h2, hsec] at hl
    exact absurd hl (by simp)
  by_cases h3 : pyStartsWith (pyStrip l) '[' && pyEndsWith (pyStrip l) ']'
  · simp [h1, h2, h3]
  · simp [h1, h2, h3]

lemma loadLines_insert_kv_outside (sec : String) (m : List String)
    (defaults : List (String × String)) (pre : List String) (l : String)
    (post : List String)
    (hsec : pyContains sec '=' = false)
    (hst : inSectionAfter sec m defaults pre = false)
    (hl : pyContains (pyStrip l) '=' = true) :
    loadLines sec m defaults (pre ++ l :: post) =
      loadLines sec m defaults (pre ++ post) := by
  unfold loadLines
  unfold inSectionAfter at hst
  rw [List.foldl_append, List.foldl_append, List.foldl_cons]
  rcases hP : pre.foldl (processLine sec m) (false, defaults) with ⟨b, s⟩
  rw [hP] at hst
  simp only at hst
  subst hst
  rw [processLine_skip sec m s l hsec hl]

end Wallselect

/-- C6: each backend's `load_config` reads only the `key=value` lines
of its own section: a `key=value` line inserted at any point where the
parser is outside the backend's section (before any header, or inside
any other section) leaves the returned settings unchanged, and an
absent config file (or empty path) returns the documented defaults
unchanged, for all of `hellwall.py`, `matugen.py` and `pywal.py`. -/
theorem C6_section_isolation :
    ((∀ pre l post,
        Wallselect.inSectionAfter "[Hellwal]" Wallselect.Hellwal.mapped_keys
          Wallselect.Hellwal.default_settings pre = false →
        Wallselect.pyContains (Wallselect.pyStrip l) '=' = true →
        Wallselect.Hellwal.load (some (pre ++ l :: post)) =
          Wallselect.Hellwal.load (some (pre ++ post))) ∧
      Wallselect.Hellwal.load none = Wallselect.Hellwal.default_settings) ∧
    ((∀ pre l post,
        Wallselect.inSectionAfter "[Matugen]" Wallselect.Matugen.mapped_keys
          Wallselect.Matugen.default_settings pre = false →
        Wallselect.pyContains (Wallselect.pyStrip l) '=' = true →
        Wallselect.Matugen.load (some (pre ++ l :: post)) =
          Wallselect.Matugen.load (some (pre ++ post))) ∧
      Wallselect.Matugen.load none = Wallselect.Matugen.default_settings) ∧
    ((∀ pre l post,
        Wallselect.inSectionAfter "[Pywal]" Wallselect.Pywal.mapped_keys
          Wallselect.Pywal.default_settings pre = false →
        Wallselect.pyContains (Wallselect.pyStrip l) '=' = true →
        Wallselect.Pywal.load (some (pre ++ l :: post)) =
          Wallselect.Pywal.load (some (pre ++ post))) ∧
      Wallselect.Pywal.load none = Wallselect.Pywal.default_settings) := by
  refine ⟨⟨?_, rfl⟩, ⟨?_, rfl⟩, ⟨?_, rfl⟩⟩ <;>
    intro pre l post hst hl <;>
    exact Wallselect.loadLines_insert_kv_outside _ _ _ pre l post (by decide) hst hl

/-- C6 witness: a `mode=light` line sitting inside a foreign section
does not change hellwal's loaded settings. -/
theorem C6_section_isolation_witness :
    Wallselect.Hellwal.load (some (["[Other]"] ++ "mode=light" :: [])) =
      Wallselect.Hellwal.load (some (["[Other]"] ++ [])) :=
  C6_section_isolation.1.1 ["[Other]"] "mode=light" [] (by decide) (by decide)

/-- C8: each backend's `load_config` is total (the Python wraps the
whole scan in `try/except` and returns the settings built so far) and
the returned dictionary always contains every default key — no default
key is ever removed — while every key it contains comes either from
the defaults or from the recognized-key mapping, so unrecognized
config keys are never added. -/
theorem C8_load_config_keys :
    (∀ file, (∀ k ∈ Wallselect.dictKeys Wallselect.Hellwal.default_settings,
        k ∈ Wallselect.dictKeys (Wallselect.Hellwal.load file)) ∧
      (∀ k ∈ Wallselect.dictKeys (Wallselect.Hellwal.load file),
        k ∈ Wallselect.dictKeys Wallselect.Hellwal.default_settings ∨
        k ∈ Wallselect.Hellwal.mapped_keys)) ∧
    (∀ file, (∀ k ∈ Wallselect.dictKeys Wallselect.Matugen.default_settings,
        k ∈ Wallselect.dictKeys (Wallselect.Matugen.load file)) ∧
      (∀ k ∈ Wallselect.dictKeys (Wallselect.Matugen.load file),
        k ∈ Wallselect.dictKeys Wallselect.Matugen.default_settings ∨
        k ∈ Wallselect.Matugen.mapped_keys)) ∧
    (∀ file, (∀ k ∈ Wallselect.dictKeys Wallselect.Pywal.default_settings,
        k ∈ Wallselect.dictKeys (Wallselect.Pywal.load file)) ∧
      (∀ k ∈ Wallselect.dictKeys (Wallselect.Pywal.load file),
        k ∈ Wallselect.dictKeys Wallselect.Pywal.default_settings ∨
        k ∈ Wallselect.Pywal.mapped_keys)) := by
  refine ⟨?_, ?_, ?_⟩ <;>
    intro file <;>
    cases file with
    | none => exact ⟨fun k hk => hk, fun k hk => Or.inl hk⟩
    | some lines => exact Wallselect.foldl_processLine_keys _ _ lines (false, _)

/-- C8 witness: the key invariants applied to a config file holding an
unrecognized key: `mode` is still present afterwards. -/
theorem C8_load_config_keys_witness :
    "mode" ∈ Wallselect.dictKeys
      (Wallselect.Hellwal.load (some ["[Hellwal]", "junk=1"])) :=
  (C8_load_config_keys.1 (some ["[Hellwal]", "junk=1"])).1 "mode" (by decide)

namespace Wallselect.Material

lemma natToHex_small (n : ℕ) (h : n < 16) : natToHex n = [hexDigitChar n] := by
  rw [natToHex]
  simp [h]

lemma hexDigitChar_mem (m : ℕ) (h : m < 16) : isHexLower (hexDigitChar m) = true := by
  interval_cases m <;> decide

lemma natToHex_le255 (n : ℕ) (h : n ≤ 255) :
    ((natToHex n).length = 1 ∨ (natToHex n).length = 2) ∧
      ∀ c ∈ natToHex n, isHexLower c = true := by
  by_cases h16 : n < 16
  · rw [natToHex_small n h16]
    refine ⟨Or.inl (by simp), ?_⟩
    intro c hc
    simp at hc
    subst hc
    exact hexDigitChar_mem n h16
  · have hdiv : n / 16 < 16 := by omega
    rw [natToHex, if_neg h16, natToHex_small _ hdiv]
    refine ⟨Or.inr (by simp), ?_⟩
    intro c hc
    simp at hc
    rcases hc with hc | hc <;> subst hc
    · exact hexDigitChar_mem _ hdiv
    · exact hexDigitChar_mem _ (Nat.mod_lt _ (by omega))

lemma format02x_le255 (n : ℕ) (h : n ≤ 255) :
    (format02x n).data.length = 2 ∧
      ∀ c ∈ (format02x n).data, isHexLower c = true := by
  obtain ⟨hlen, hmem⟩ := natToHex_le255 n h
  constructor
  · unfold format02x
    rcases hlen with hl | hl <;> simp [hl]
  · unfold format02x
    intro c hc
    simp only [List.mem_append, List.mem_replicate] at hc
    rcases hc with ⟨_, hc⟩ | hc
    · subst hc; decide
    · exact hmem c hc

end Wallselect.Material

/-- C10: `rgba_to_hex`, applied to an RGBA quadruple whose first three
components lie in `[0, 255]`, yields a string of exactly `'#'`
followed by six lowercase hexadecimal digits, uses only the first
three components, and discards the alpha channel (the result is
independent of the fourth component). -/
theorem C10_rgba_hex_format (r g b a : ℕ)
    (hr : r ≤ 255) (hg : g ≤ 255) (hb : b ≤ 255) :
    ∃ s, Wallselect.Material.rgba_to_hex [r, g, b, a] = some s ∧
      s.data.length = 7 ∧
      s.data.head? = some '#' ∧
      (∀ c ∈ s.data.tail, Wallselect.Material.isHexLower c = true) ∧
      ∀ a', Wallselect.Material.rgba_to_hex [r, g, b, a'] = some s := by
  obtain ⟨hrl, hrm⟩ := Wallselect.Material.format02x_le255 r hr
  obtain ⟨hgl, hgm⟩ := Wallselect.Material.format02x_le255 g hg
  obtain ⟨hbl, hbm⟩ := Wallselect.Material.format02x_le255 b hb
  refine ⟨"#" ++ Wallselect.Material.format02x r ++
    Wallselect.Material.format02x g ++ Wallselect.Material.format02x b,
    rfl, ?_, ?_, ?_, fun a' => rfl⟩
  · simp [hrl, hgl, hbl]
  · simp
  · intro c hc
    have hdata : ("#" ++ Wallselect.Material.format02x r ++
        Wallselect.Material.format02x g ++ Wallselect.Material.format02x b).data =
        '#' :: ((Wallselect.Material.format02x r).data ++
          (Wallselect.Material.format02x g).data ++
          (Wallselect.Material.format02x b).data) := rfl
    rw [hdata] at hc
    simp only [List.tail_cons, List.mem_append] at hc
    rcases hc with (hc | hc) | hc
    · exact hrm c hc
    · exact hgm c hc
    · exact hbm c hc

/-- C10 witness: the format theorem applied to black with full alpha. -/
theorem C10_rgba_hex_format_witness :
    ∃ s, Wallselect.Material.rgba_to_hex [0, 0, 0, 255] = some s ∧
      s.data.length = 7 ∧
      s.data.head? = some '#' ∧
      (∀ c ∈ s.data.tail, Wallselect.Material.isHexLower c = true) ∧
      ∀ a', Wallselect.Material.rgba_to_hex [0, 0, 0, a'] = some s :=
  C10_rgba_hex_format 0 0 0 255 (by decide) (by decide) (by decide)

namespace Wallselect.Material

lemma pyround_intCast (m : ℤ) : pyround (m : ℝ) = m := by
  unfold pyround
  rw [Int.fract_intCast]
  rw [if_neg (by norm_num), round_intCast]

lemma pyround_nonneg {x : ℝ} (hx : 0 ≤ x) : 0 ≤ pyround x := by
  unfold pyround
  split_ifs with h1 h2
  · exact Int.floor_nonneg.mpr hx
  · have := Int.floor_nonneg.mpr hx
    omega
  · have h := sub_half_lt_round x
    have hlt : ((-1 : ℤ) : ℝ) < (round x : ℝ) := by
      push_cast
      linarith
    have : (-1 : ℤ) < round x := by exact_mod_cast hlt
    omega

lemma pyround_le {x : ℝ} {m : ℤ} (hx : x ≤ (m : ℝ)) : pyround x ≤ m := by
  unfold pyround
  split_ifs with h1 h2
  · calc ⌊x⌋ ≤ ⌊(m : ℝ)⌋ := Int.floor_mono hx
      _ = m := Int.floor_intCast m
  · have hfl : (⌊x⌋ : ℝ) + 1 / 2 = x := by
      conv_rhs => rw [← Int.floor_add_fract x]
      rw [h1]
    have hlt : (⌊x⌋ : ℝ) < (m : ℝ) := by linarith
    have : ⌊x⌋ < m := by exact_mod_cast hlt
    omega
  · have h := round_le_add_half x
    have hlt : (round x : ℝ) < (m : ℝ) + 1 := by linarith
    have : round x < m + 1 := by exact_mod_cast hlt
    omega

lemma clamp_pyround_bounds (n : ℕ) (hn : 1 ≤ n) (s : ℝ)
    (hs0 : 0 ≤ s) (hs1 : s ≤ 1) :
    1 ≤ (if pyround ((n : ℝ) * s) = 0 then 1 else pyround ((n : ℝ) * s)) ∧
    (if pyround ((n : ℝ) * s) = 0 then 1 else pyround ((n : ℝ) * s)) ≤ (n : ℤ) := by
  have hx0 : (0 : ℝ) ≤ (n : ℝ) * s := by positivity
  have hxn : (n : ℝ) * s ≤ ((n : ℤ) : ℝ) := by
    push_cast
    exact mul_le_of_le_one_right (by positivity) hs1
  have hub := pyround_le hxn
  have hlb := pyround_nonneg hx0
  constructor
  · split_ifs with h0
    · exact le_refl 1
    · omega
  · split_ifs with h0
    · exact_mod_cast hn
    · exact hub

end Wallselect.Material

/-- C7: `calculate_optimal_size(w, h, 128)` never enlarges the image:
for dimensions at least 1 it returns dimensions between 1 and the
originals; when the image area is at most `128 * 128` it returns the
original dimensions unchanged; and `get_colors_from_img` resizes
exactly when at least one computed dimension is strictly smaller than
the original. -/
theorem C7_optimal_size_bounds (w h : ℕ) (hw : 1 ≤ w) (hh : 1 ≤ h) :
    (1 ≤ (Wallselect.Material.calculate_optimal_size w h 128).1 ∧
     (Wallselect.Material.calculate_optimal_size w h 128).1 ≤ (w : ℤ) ∧
     1 ≤ (Wallselect.Material.calculate_optimal_size w h 128).2 ∧
     (Wallselect.Material.calculate_optimal_size w h 128).2 ≤ (h : ℤ)) ∧
    (w * h ≤ 128 * 128 →
      Wallselect.Material.calculate_optimal_size w h 128 = ((w : ℤ), (h : ℤ))) ∧
    (Wallselect.Material.resizes w h ↔
      ((Wallselect.Material.calculate_optimal_size w h 128).1 < (w : ℤ) ∨
       (Wallselect.Material.calculate_optimal_size w h 128).2 < (h : ℤ))) := by
  have hsmall : ¬ 128 ^ 2 < w * h →
      Wallselect.Material.calculate_optimal_size w h 128 = ((w : ℤ), (h : ℤ)) := by
    intro harea
    have hwint : Wallselect.Material.pyround ((w : ℝ) * 1) = (w : ℤ) := by
      rw [mul_one]
      have hc : ((w : ℕ) : ℝ) = (((w : ℕ) : ℤ) : ℝ) := by push_cast; ring
      rw [hc, Wallselect.Material.pyround_intCast]
    have hhint : Wallselect.Material.pyround ((h : ℝ) * 1) = (h : ℤ) := by
      rw [mul_one]
      have hc : ((h : ℕ) : ℝ) = (((h : ℕ) : ℤ) : ℝ) := by push_cast; ring
      rw [hc, Wallselect.Material.pyround_intCast]
    have hw0 : ¬ ((w : ℤ) = 0) := by
      have : 0 < w := hw
      omega
    have hh0 : ¬ ((h : ℤ) = 0) := by
      have : 0 < h := hh
      omega
    simp only [Wallselect.Material.calculate_optimal_size]
    rw [if_neg harea, hwint, hhint, if_neg hw0, if_neg hh0]
  refine ⟨?_, ?_, Iff.rfl⟩
  · by_cases harea : 128 ^ 2 < w * h
    · have hwh : (0 : ℝ) < ((w * h : ℕ) : ℝ) := by
        have : 0 < w * h := by omega
        exact_mod_cast this
      have hs0 : (0 : ℝ) ≤ Real.sqrt (((128 ^ 2 : ℕ) : ℝ) / ((w * h : ℕ) : ℝ)) :=
        Real.sqrt_nonneg _
      have hs1 : Real.sqrt (((128 ^ 2 : ℕ) : ℝ) / ((w * h : ℕ) : ℝ)) ≤ 1 := by
        rw [Real.sqrt_le_one, div_le_one hwh]
        exact_mod_cast le_of_lt harea
      obtain ⟨hw1, hw2⟩ := Wallselect.Material.clamp_pyround_bounds w hw _ hs0 hs1
      obtain ⟨hh1, hh2⟩ := Wallselect.Material.clamp_pyround_bounds h hh _ hs0 hs1
      simp only [Wallselect.Material.calculate_optimal_size]
      rw [if_pos harea]
      exact ⟨hw1, hw2, hh1, hh2⟩
    · rw [hsmall harea]
      refine ⟨?_, le_refl _, ?_, le_refl _⟩
      · show (1 : ℤ) ≤ (w : ℤ)
        exact_mod_cast hw
      · show (1 : ℤ) ≤ (h : ℤ)
        exact_mod_cast hh
  · intro hle
    have h16384 : (128 : ℕ) ^ 2 = 16384 := by norm_num
    exact hsmall (by omega)

/-- C7 witness: the bounds theorem applied to a 10 by 10 image, whose
area is below the `128 * 128` threshold. -/
theorem C7_optimal_size_bounds_witness :
    Wallselect.Material.calculate_optimal_size 10 10 128 = ((10 : ℤ), (10 : ℤ)) :=
  (C7_optimal_size_bounds 10 10 (by decide) (by decide)).2.1 (by decide)
